import Mathlib

/-!
Verification of the realtime event-fanout relay of `afc-stack`:
`apps/ws/src/server.ts` (the relay) and
`apps/web/src/app/api/todos/route.ts` (the origin application's POST handler).

The relay keeps a process-wide `clients : Set` of websocket handles, registers
a socket on `GET /ws`, deletes it on the socket's close event, and on
`POST /events/todo-created` serializes one envelope and iterates a snapshot
(`Array.from(clients)`) pushing the serialized string to each socket; the
whole body, loop included, sits in one try/catch that answers 204 on success
and 400 on any thrown error.
-/

namespace AfcStack

/-! ### JSON values

The runtime's JSON data, as produced by `JSON.parse` and consumed by
`JSON.stringify`. Numbers are modelled as integers; the claims never depend
on fractional numerics. -/

inductive Json where
  | null : Json
  | bool : Bool → Json
  | num : Int → Json
  | str : String → Json
  | arr : List Json → Json
  | obj : List (String × Json) → Json

/-- Escaping of a string for a JSON text, as JSON.stringify does for the
characters the claims can meet (quote and backslash). -/
def escapeString (s : String) : String :=
  s.foldl
    (fun acc c =>
      if c = '"' then acc ++ "\\\""
      else if c = '\\' then acc ++ "\\\\"
      else acc.push c)
    ""

mutual

/-- JSON.stringify. -/
def Json.stringify : Json → String
  | .null => "null"
  | .bool true => "true"
  | .bool false => "false"
  | .num n => toString n
  | .str s => "\"" ++ escapeString s ++ "\""
  | .arr xs => "[" ++ Json.stringifyArr xs ++ "]"
  | .obj fs => "\x7b" ++ Json.stringifyObj fs ++ "\x7d"

def Json.stringifyArr : List Json → String
  | [] => ""
  | [x] => x.stringify
  | x :: y :: xs => x.stringify ++ "," ++ Json.stringifyArr (y :: xs)

def Json.stringifyObj : List (String × Json) → String
  | [] => ""
  | [(k, v)] => "\"" ++ escapeString k ++ "\":" ++ v.stringify
  | (k, v) :: f :: fs =>
      "\"" ++ escapeString k ++ "\":" ++ v.stringify ++ "," ++ Json.stringifyObj (f :: fs)

end

/-! ### The relay: `apps/ws/src/server.ts` -/

/-- What one socket's `send(message)` does when the fanout loop calls it.
The handles in `clients` are typed `any`; the handler code itself guarantees
nothing about `send`. A live socket delivers the frame; a ws socket that is
already CLOSING or CLOSED silently drops the frame (its send with no callback
reports no error); nothing prevents a handle whose send throws synchronously. -/
inductive SendBehavior where
  | ok : SendBehavior
  | silent : SendBehavior
  | throws : SendBehavior
deriving DecidableEq, Repr

/-- One registered connection: the identity of the socket handle held in the
`clients` set, together with what its `send` does. -/
structure Client where
  id : Nat
  behavior : SendBehavior
deriving DecidableEq, Repr

/-- Outcome of the `for (const client of Array.from(clients)) client.send(message)`
loop: the frames actually delivered, the send calls attempted (in order), and
whether some send threw (which exits the loop at that point). -/
structure LoopResult where
  delivered : List (Nat × String)
  attempts : List Nat
  threw : Bool
deriving DecidableEq, Repr

/-- The fanout loop over a snapshot. A throwing send exits the loop at once;
a silent send is attempted but delivers nothing; an ok send delivers the
message. -/
def sendLoop (message : String) : List Client → LoopResult
  | [] => ⟨[], [], false⟩
  | ⟨i, .throws⟩ :: _ => ⟨[], [i], true⟩
  | ⟨i, .ok⟩ :: rest =>
      ⟨(i, message) :: (sendLoop message rest).delivered,
       i :: (sendLoop message rest).attempts,
       (sendLoop message rest).threw⟩
  | ⟨i, .silent⟩ :: rest =>
      ⟨(sendLoop message rest).delivered,
       i :: (sendLoop message rest).attempts,
       (sendLoop message rest).threw⟩

/-- The request body as the handler observes it: either Fastify hands the
handler a parsed JSON value, or body parsing fails (not valid JSON) and the
call is answered with a client error without the fanout running. -/
inductive ReqBody where
  | malformed : ReqBody
  | json : Json → ReqBody

/-- The route path of the ingestion endpoint, from
`app.post("/events/todo-created", ...)`. -/
def eventRoutePath : String := "/events/todo-created"

/-- The event-type segment of the ingestion path: what follows "/events/". -/
def pathEventType : String := eventRoutePath.drop 8

/-- The envelope built for one parsed body:
`JSON.stringify(\x7b type: "todo:created", payload: data \x7d)` before
stringification. The type tag is the hardcoded string "todo:created". -/
def envelope (data : Json) : Json :=
  Json.obj [("type", Json.str "todo:created"), ("payload", data)]

/-- What one ingestion call returns and does: the HTTP status, the frames
delivered (socket id, frame) in order, and the send calls attempted. -/
structure HandlerResult where
  status : Nat
  delivered : List (Nat × String)
  attempts : List Nat
deriving DecidableEq, Repr

/-- The `POST /events/todo-created` handler. On a parsed body it serializes
the envelope once and runs the fanout loop over the snapshot; the try/catch
wraps the whole loop, so a send that throws aborts the remaining sends and
the catch answers 400; otherwise the handler answers 204. A body that fails
JSON parsing is answered 400 with no send attempted. -/
def todoCreatedHandler (snapshot : List Client) (body : ReqBody) : HandlerResult :=
  match body with
  | .malformed => ⟨400, [], []⟩
  | .json data =>
      let message := (envelope data).stringify
      let r := sendLoop message snapshot
      if r.threw then ⟨400, r.delivered, r.attempts⟩
      else ⟨204, r.delivered, r.attempts⟩

/-- The relay process state: the `clients` set (an insertion-ordered list of
distinct socket handles), each socket's received frames, and the statuses the
ingestion endpoint has answered so far. -/
structure RelayState where
  registry : List Client
  inbox : Nat → List String
  responses : List Nat

/-- Append to each socket's inbox the frames the fanout delivered to it. -/
def deliverAll (delivered : List (Nat × String)) (inbox : Nat → List String) :
    Nat → List String :=
  fun x => inbox x ++ (delivered.filter (fun p => p.1 == x)).map Prod.snd

/-- The observable events of the relay process: a socket completes the
`GET /ws` handshake and is added to `clients`; a socket's close event fires
and `clients.delete` runs; an ingestion request arrives. -/
inductive SysEvent where
  | connect : Client → SysEvent
  | disconnect : Nat → SysEvent
  | ingest : ReqBody → SysEvent

/-- One step of the relay process. `connect` is `clients.add` (a no-op when
the same handle is already present, as for a JS Set); `disconnect` is
`clients.delete` (idempotent); `ingest` runs the handler over the snapshot
`Array.from(clients)` and records its status — it never touches `clients`. -/
def step (s : RelayState) : SysEvent → RelayState
  | .connect c =>
      if s.registry.any (fun d => d.id == c.id) then s
      else { s with registry := s.registry ++ [c] }
  | .disconnect i =>
      { s with registry := s.registry.filter (fun d => d.id != i) }
  | .ingest body =>
      let r := todoCreatedHandler s.registry body
      { s with
          inbox := deliverAll r.delivered s.inbox
          responses := s.responses ++ [r.status] }

/-! ### The origin application: `apps/web/src/app/api/todos/route.ts`, POST -/

/-- Outcome of the `fetch` to the relay: the promise resolves, or it rejects
(relay down or unreachable). -/
inductive FetchOutcome where
  | ok : FetchOutcome
  | rejects : FetchOutcome
deriving DecidableEq, Repr

/-- What the POST /api/todos handler answers: HTTP status, response body, and
whether a notification fetch to the relay was attempted. -/
structure WebResult where
  status : Nat
  body : Json
  fetchAttempted : Bool

/-- `createTodoSchema.safeParse`: the schema
`z.object(\x7b title: z.string().min(1).max(200) \x7d)` succeeds exactly when
the body is an object whose "title" field is a string of length 1 to 200,
yielding that title. -/
def parseCreateTodo (body : Json) : Option String :=
  match body with
  | .obj fs =>
      match fs.lookup "title" with
      | some (Json.str t) =>
          if 1 ≤ t.length ∧ t.length ≤ 200 then some t else none
      | _ => none
  | _ => none

/-- The POST /api/todos handler. `inserted` is the row the database returned
from `insert(...).returning()` (the database is an external collaborator).
`wsInternalUrl` models `process.env.WS_INTERNAL_URL` (`none` = unset); by JS
truthiness the empty string also skips the broadcast. When the broadcast runs,
`fetch(...).catch(() => \x7b\x7d)` swallows a rejection, so the handler
answers 201 with the inserted row whatever the fetch outcome was. -/
def webPost (rateLimited : Bool) (body : Json) (inserted : Json)
    (wsInternalUrl : Option String) (fetchOutcome : FetchOutcome) : WebResult :=
  if rateLimited then
    ⟨429, Json.obj [("error", Json.str "rate_limited")], false⟩
  else
    match parseCreateTodo body with
    | none => ⟨400, Json.obj [("error", Json.str "invalid_input")], false⟩
    | some _ =>
        let notify :=
          match wsInternalUrl with
          | some u => u != ""
          | none => false
        match notify, fetchOutcome with
        | true, .ok => ⟨201, inserted, true⟩
        | true, .rejects => ⟨201, inserted, true⟩
        | false, _ => ⟨201, inserted, false⟩

/-! ### Lemmas about the fanout loop -/

/-- Every frame the loop delivers goes to a socket of the snapshot and carries
the one serialized message. -/
theorem sendLoop_delivered_mem (message : String) (l : List Client) :
    ∀ p ∈ (sendLoop message l).delivered, p.1 ∈ l.map Client.id ∧ p.2 = message := by
  induction l with
  | nil => intro p hp; simp [sendLoop] at hp
  | cons c rest ih =>
      obtain ⟨i, b⟩ := c
      intro p hp
      cases b
      · simp only [sendLoop, List.mem_cons] at hp
        rcases hp with h | h
        · subst h; simp
        · rcases ih p h with ⟨h1, h2⟩
          exact ⟨by simp [h1], h2⟩
      · simp only [sendLoop] at hp
        rcases ih p hp with ⟨h1, h2⟩
        exact ⟨by simp [h1], h2⟩
      · simp [sendLoop] at hp

/-- When no socket of the snapshot throws, the loop finishes without an
exception. -/
theorem sendLoop_no_throw (message : String) (l : List Client)
    (h : ∀ d ∈ l, d.behavior ≠ SendBehavior.throws) :
    (sendLoop message l).threw = false := by
  induction l with
  | nil => simp [sendLoop]
  | cons c rest ih =>
      obtain ⟨i, b⟩ := c
      cases b
      · exact ih fun d hd => h d (List.mem_cons_of_mem _ hd)
      · exact ih fun d hd => h d (List.mem_cons_of_mem _ hd)
      · exact (h ⟨i, SendBehavior.throws⟩ (List.mem_cons_self _ _) rfl).elim

/-- When no socket throws and socket ids are distinct, socket `c` of the
snapshot ends the loop with exactly one copy of the message if its send
delivers, and with nothing if its send fails silently. -/
theorem sendLoop_filter_eq (message : String) (l : List Client) (c : Client)
    (hc : c ∈ l) (hnodup : (l.map Client.id).Nodup)
    (hnt : ∀ d ∈ l, d.behavior ≠ SendBehavior.throws) :
    ((sendLoop message l).delivered.filter (fun p => p.1 == c.id)).map Prod.snd
      = if c.behavior = SendBehavior.ok then [message] else [] := by
  induction l with
  | nil => simp at hc
  | cons d rest ih =>
      obtain ⟨i, b⟩ := d
      rw [List.map_cons, List.nodup_cons] at hnodup
      have hnt' : ∀ e ∈ rest, e.behavior ≠ SendBehavior.throws :=
        fun e he => hnt e (List.mem_cons_of_mem _ he)
      rcases List.mem_cons.mp hc with hceq | hcrest
      · have hrest : (sendLoop message rest).delivered.filter (fun p => p.1 == i) = [] := by
          apply List.filter_eq_nil_iff.mpr
          intro p hp hbeq
          have h1 := (sendLoop_delivered_mem message rest p hp).1
          rw [show p.1 = i from by simpa using hbeq] at h1
          exact hnodup.1 h1
        subst hceq
        cases b
        · simp [sendLoop, hrest]
        · simp [sendLoop, hrest]
        · exact (hnt ⟨i, SendBehavior.throws⟩ (List.mem_cons_self _ _) rfl).elim
      · have hib : ((i : Nat) == c.id) = false := by
          apply beq_eq_false_iff_ne.mpr
          intro hie
          exact hnodup.1 (by rw [hie]; exact List.mem_map.mpr ⟨c, hcrest, rfl⟩)
        have ihr := ih hcrest hnodup.2 hnt'
        cases b
        · simpa [sendLoop, hib] using ihr
        · simpa [sendLoop] using ihr
        · exact (hnt ⟨i, SendBehavior.throws⟩ (List.mem_cons_self _ _) rfl).elim

/-- A socket id outside the snapshot receives nothing from the fanout. -/
theorem deliverAll_not_mem (message : String) (l : List Client)
    (inbox : Nat → List String) (x : Nat) (hx : x ∉ l.map Client.id) :
    deliverAll (sendLoop message l).delivered inbox x = inbox x := by
  unfold deliverAll
  rw [List.filter_eq_nil_iff.mpr, List.map_nil, List.append_nil]
  intro p hp hbeq
  have h1 := (sendLoop_delivered_mem message l p hp).1
  rw [show p.1 = x from by simpa using hbeq] at h1
  exact hx h1

/-- What the fanout leaves in socket `c`'s inbox, when no socket of the
snapshot throws. -/
theorem deliverAll_mem (message : String) (l : List Client) (c : Client)
    (inbox : Nat → List String) (hc : c ∈ l) (hnodup : (l.map Client.id).Nodup)
    (hnt : ∀ d ∈ l, d.behavior ≠ SendBehavior.throws) :
    deliverAll (sendLoop message l).delivered inbox c.id
      = inbox c.id ++ (if c.behavior = SendBehavior.ok then [message] else []) := by
  unfold deliverAll
  rw [sendLoop_filter_eq message l c hc hnodup hnt]

/-- Throwing at position `k` of the snapshot: the sockets before it, all with
delivering sends, have received the message; the one throwing send was
attempted; the loop exits with the exception flag set. -/
theorem sendLoop_pre_throw (message : String) (pre post : List Client) (c : Client)
    (hpre : ∀ d ∈ pre, d.behavior = SendBehavior.ok)
    (hc : c.behavior = SendBehavior.throws) :
    sendLoop message (pre ++ c :: post)
      = ⟨pre.map (fun d => (d.id, message)), pre.map Client.id ++ [c.id], true⟩ := by
  induction pre with
  | nil =>
      obtain ⟨i, b⟩ := c
      have hb : b = SendBehavior.throws := hc
      subst hb
      simp [sendLoop]
  | cons d rest ih =>
      obtain ⟨i, b⟩ := d
      have hb : b = SendBehavior.ok := hpre ⟨i, b⟩ (List.mem_cons_self _ _)
      subst hb
      have ihr := ih fun e he => hpre e (List.mem_cons_of_mem _ he)
      simp [sendLoop, ihr]

/-! ### Concrete relay states used as witnesses -/

/-- A relay state with two live sockets and empty inboxes. -/
def twoLive : RelayState :=
  ⟨[⟨0, SendBehavior.ok⟩, ⟨1, SendBehavior.ok⟩], fun _ => [], []⟩

/-- A relay state whose first registered socket's send throws. -/
def throwFirst : RelayState :=
  ⟨[⟨0, SendBehavior.throws⟩, ⟨1, SendBehavior.ok⟩], fun _ => [], []⟩

/-- A relay state whose first registered socket is broken but fails silently,
the way an already-closed ws socket does. -/
def silentFirst : RelayState :=
  ⟨[⟨0, SendBehavior.silent⟩, ⟨1, SendBehavior.ok⟩], fun _ => [], []⟩

/-- A request body accepted by the todo schema. -/
def sampleTodoBody : Json := Json.obj [("title", Json.str "write docs")]

/-! ### The claims -/

/-- C2: while N connections are registered and none closes or fails during
fanout, an ingested envelope reaches each of them exactly once: the call
answers 204 and each registered socket's inbox gains exactly one copy of the
one serialized string. -/
theorem fanout_completeness (s : RelayState) (v : Json)
    (hnodup : (s.registry.map Client.id).Nodup)
    (hok : ∀ c ∈ s.registry, c.behavior = SendBehavior.ok) :
    (step s (.ingest (.json v))).responses = s.responses ++ [204] ∧
    ∀ c ∈ s.registry,
      (step s (.ingest (.json v))).inbox c.id
        = s.inbox c.id ++ [(envelope v).stringify] := by
  have hnt : ∀ d ∈ s.registry, d.behavior ≠ SendBehavior.throws := by
    intro d hd
    rw [hok d hd]
    exact fun h => SendBehavior.noConfusion h
  constructor
  · simp [step, todoCreatedHandler,
      sendLoop_no_throw ((envelope v).stringify) s.registry hnt]
  · intro c hcmem
    have hd := deliverAll_mem ((envelope v).stringify) s.registry c s.inbox
      hcmem hnodup hnt
    rw [hok c hcmem, if_pos rfl] at hd
    simpa [step, todoCreatedHandler,
      sendLoop_no_throw ((envelope v).stringify) s.registry hnt] using hd

/-- C2 witness: a concrete two-socket state. -/
theorem fanout_completeness_witness :
    ((twoLive.registry.map Client.id).Nodup ∧
      ∀ c ∈ twoLive.registry, c.behavior = SendBehavior.ok) ∧
    ((step twoLive (.ingest (.json (Json.num 7)))).responses
        = twoLive.responses ++ [204] ∧
      ∀ c ∈ twoLive.registry,
        (step twoLive (.ingest (.json (Json.num 7)))).inbox c.id
          = twoLive.inbox c.id ++ [(envelope (Json.num 7)).stringify]) :=
  ⟨⟨by decide, by decide⟩,
    fanout_completeness twoLive (Json.num 7) (by decide) (by decide)⟩

/-- C1 counterexample: with the registry holding socket 0 (whose send fails by
throwing) and the live socket 1, a valid ingestion leaves socket 1 without the
envelope and answers 400, not a success status — the one push failure aborted
the remaining sends. -/
theorem isolation_counterexample :
    (step throwFirst (.ingest (.json (Json.num 7)))).responses = [400] ∧
    (step throwFirst (.ingest (.json (Json.num 7)))).inbox 1 = [] :=
  ⟨rfl, rfl⟩

/-- C1 amended: a broken connection's push failure is isolated only when the
send fails without throwing, which is how an already-closed ws socket fails:
then the call answers 204 and every other, live socket still receives the
envelope. A send that throws instead aborts the remaining sends, because the
handler's try/catch wraps the whole loop (see the counterexample). -/
theorem isolation_silent_failure (s : RelayState) (v : Json) (b : Client)
    (hb : b ∈ s.registry) (hbs : b.behavior = SendBehavior.silent)
    (hnodup : (s.registry.map Client.id).Nodup)
    (hrest : ∀ c ∈ s.registry, c ≠ b → c.behavior = SendBehavior.ok) :
    (step s (.ingest (.json v))).responses = s.responses ++ [204] ∧
    (step s (.ingest (.json v))).inbox b.id = s.inbox b.id ∧
    ∀ c ∈ s.registry, c ≠ b →
      (step s (.ingest (.json v))).inbox c.id
        = s.inbox c.id ++ [(envelope v).stringify] := by
  have hnt : ∀ d ∈ s.registry, d.behavior ≠ SendBehavior.throws := by
    intro d hd
    by_cases hdb : d = b
    · rw [hdb, hbs]; exact fun h => SendBehavior.noConfusion h
    · rw [hrest d hd hdb]; exact fun h => SendBehavior.noConfusion h
  refine ⟨?_, ?_, ?_⟩
  · simp [step, todoCreatedHandler,
      sendLoop_no_throw ((envelope v).stringify) s.registry hnt]
  · have hd := deliverAll_mem ((envelope v).stringify) s.registry b s.inbox
      hb hnodup hnt
    rw [hbs, if_neg (by decide), List.append_nil] at hd
    simpa [step, todoCreatedHandler,
      sendLoop_no_throw ((envelope v).stringify) s.registry hnt] using hd
  · intro c hcm hcb
    have hd := deliverAll_mem ((envelope v).stringify) s.registry c s.inbox
      hcm hnodup hnt
    rw [hrest c hcm hcb, if_pos rfl] at hd
    simpa [step, todoCreatedHandler,
      sendLoop_no_throw ((envelope v).stringify) s.registry hnt] using hd

/-- C1 amended witness: socket 0 broken-but-silent, socket 1 live. -/
theorem isolation_silent_failure_witness :
    ((⟨0, SendBehavior.silent⟩ : Client) ∈ silentFirst.registry ∧
      (⟨0, SendBehavior.silent⟩ : Client).behavior = SendBehavior.silent ∧
      (silentFirst.registry.map Client.id).Nodup ∧
      ∀ c ∈ silentFirst.registry, c ≠ (⟨0, SendBehavior.silent⟩ : Client) →
        c.behavior = SendBehavior.ok) ∧
    ((step silentFirst (.ingest (.json (Json.num 7)))).responses
        = silentFirst.responses ++ [204] ∧
      (step silentFirst (.ingest (.json (Json.num 7)))).inbox
          (⟨0, SendBehavior.silent⟩ : Client).id
        = silentFirst.inbox (⟨0, SendBehavior.silent⟩ : Client).id ∧
      ∀ c ∈ silentFirst.registry, c ≠ (⟨0, SendBehavior.silent⟩ : Client) →
        (step silentFirst (.ingest (.json (Json.num 7)))).inbox c.id
          = silentFirst.inbox c.id ++ [(envelope (Json.num 7)).stringify]) :=
  ⟨⟨by decide, rfl, by decide, by decide⟩,
    isolation_silent_failure silentFirst (Json.num 7) ⟨0, SendBehavior.silent⟩
      (by decide) rfl (by decide) (by decide)⟩

/-- C3: an ingestion call whose body fails JSON parsing answers 400 and makes
zero send attempts: nothing is delivered, no inbox changes. -/
theorem malformed_rejected (s : RelayState) :
    todoCreatedHandler s.registry ReqBody.malformed
      = ⟨400, [], []⟩ ∧
    (step s (.ingest ReqBody.malformed)).inbox = s.inbox ∧
    (step s (.ingest ReqBody.malformed)).responses = s.responses ++ [400] := by
  refine ⟨rfl, ?_, rfl⟩
  funext x
  simp [step, todoCreatedHandler, deliverAll]

/-- C4 counterexample: the one ingestion route's path segment is
"todo-created", but the frame's type tag is the hardcoded "todo:created"; the
two differ, so the frame type does not equal the event type parameterizing
the path. -/
theorem frame_type_counterexample :
    pathEventType = "todo-created" ∧
    envelope (Json.num 7)
      = Json.obj [("type", Json.str "todo:created"), ("payload", Json.num 7)] ∧
    "todo:created" ≠ "todo-created" :=
  ⟨by decide, rfl, by decide⟩

/-- C4 amended: every frame a fanout delivers is the serialization of the
object whose type tag is the fixed string "todo:created" — not the route's
path segment "todo-created" — and whose payload embeds the parsed request
body verbatim. -/
theorem frame_shape (snapshot : List Client) (v : Json) (p : Nat × String)
    (hp : p ∈ (todoCreatedHandler snapshot (.json v)).delivered) :
    p.2 = (Json.obj [("type", Json.str "todo:created"),
      ("payload", v)]).stringify := by
  have hdel : (todoCreatedHandler snapshot (.json v)).delivered
      = (sendLoop ((envelope v).stringify) snapshot).delivered := by
    simp only [todoCreatedHandler]
    split <;> rfl
  rw [hdel] at hp
  exact (sendLoop_delivered_mem _ _ p hp).2

/-- C4 amended witness: one live socket receives exactly that frame. -/
theorem frame_shape_witness :
    ((0 : Nat), (envelope (Json.num 7)).stringify)
        ∈ (todoCreatedHandler [⟨0, SendBehavior.ok⟩]
            (.json (Json.num 7))).delivered ∧
    ((0 : Nat), (envelope (Json.num 7)).stringify).2
      = (Json.obj [("type", Json.str "todo:created"),
          ("payload", Json.num 7)]).stringify :=
  ⟨by simp [todoCreatedHandler, sendLoop],
    frame_shape [⟨0, SendBehavior.ok⟩] (Json.num 7) _
      (by simp [todoCreatedHandler, sendLoop])⟩

/-- C5 counterexample: socket 0's push fails (silently, as a closed ws socket
fails), fanout continues to socket 1 and the call answers 204 — and yet
socket 0, never removed before the call, is still in the registry after it:
the fanout does not remove a failed connection. -/
theorem push_failure_removal_counterexample :
    (step silentFirst (.ingest (.json (Json.num 7)))).responses = [204] ∧
    (step silentFirst (.ingest (.json (Json.num 7)))).inbox 0 = [] ∧
    (step silentFirst (.ingest (.json (Json.num 7)))).inbox 1
      = [(envelope (Json.num 7)).stringify] ∧
    (⟨0, SendBehavior.silent⟩ : Client)
      ∈ (step silentFirst (.ingest (.json (Json.num 7)))).registry :=
  ⟨rfl, rfl, rfl, List.mem_cons_self _ _⟩

/-- C5 amended: a push failure that does not throw is absorbed and fanout
continues — the live sockets still receive the envelope and the call answers
204 — but the fanout itself never mutates the registry: the failed
connection stays registered until its own close event fires. -/
theorem push_failure_no_removal (s : RelayState) (v : Json) (b : Client)
    (hb : b ∈ s.registry) (hbs : b.behavior = SendBehavior.silent)
    (hnodup : (s.registry.map Client.id).Nodup)
    (hrest : ∀ c ∈ s.registry, c ≠ b → c.behavior = SendBehavior.ok) :
    (step s (.ingest (.json v))).responses = s.responses ++ [204] ∧
    (∀ c ∈ s.registry, c ≠ b →
      (step s (.ingest (.json v))).inbox c.id
        = s.inbox c.id ++ [(envelope v).stringify]) ∧
    (step s (.ingest (.json v))).registry = s.registry ∧
    b ∈ (step s (.ingest (.json v))).registry := by
  have hnt : ∀ d ∈ s.registry, d.behavior ≠ SendBehavior.throws := by
    intro d hd
    by_cases hdb : d = b
    · rw [hdb, hbs]; exact fun h => SendBehavior.noConfusion h
    · rw [hrest d hd hdb]; exact fun h => SendBehavior.noConfusion h
  refine ⟨?_, ?_, rfl, hb⟩
  · simp [step, todoCreatedHandler,
      sendLoop_no_throw ((envelope v).stringify) s.registry hnt]
  · intro c hcm hcb
    have hd := deliverAll_mem ((envelope v).stringify) s.registry c s.inbox
      hcm hnodup hnt
    rw [hrest c hcm hcb, if_pos rfl] at hd
    simpa [step, todoCreatedHandler,
      sendLoop_no_throw ((envelope v).stringify) s.registry hnt] using hd

/-- C5 amended witness: socket 0 broken-but-silent, socket 1 live. -/
theorem push_failure_no_removal_witness :
    ((⟨0, SendBehavior.silent⟩ : Client) ∈ silentFirst.registry ∧
      (⟨0, SendBehavior.silent⟩ : Client).behavior = SendBehavior.silent ∧
      (silentFirst.registry.map Client.id).Nodup ∧
      ∀ c ∈ silentFirst.registry, c ≠ (⟨0, SendBehavior.silent⟩ : Client) →
        c.behavior = SendBehavior.ok) ∧
    ((step silentFirst (.ingest (.json (Json.num 7)))).responses
        = silentFirst.responses ++ [204] ∧
      (∀ c ∈ silentFirst.registry, c ≠ (⟨0, SendBehavior.silent⟩ : Client) →
        (step silentFirst (.ingest (.json (Json.num 7)))).inbox c.id
          = silentFirst.inbox c.id ++ [(envelope (Json.num 7)).stringify]) ∧
      (step silentFirst (.ingest (.json (Json.num 7)))).registry
        = silentFirst.registry ∧
      (⟨0, SendBehavior.silent⟩ : Client)
        ∈ (step silentFirst (.ingest (.json (Json.num 7)))).registry) :=
  ⟨⟨by decide, rfl, by decide, by decide⟩,
    push_failure_no_removal silentFirst (Json.num 7) ⟨0, SendBehavior.silent⟩
      (by decide) rfl (by decide) (by decide)⟩

/-- C6: when a successful todo creation's broadcast fetch rejects (relay down
or unreachable), the catch swallows the failure: the handler's answer is the
same as after a successful fetch — 201 with the inserted row — with the
notification having been attempted. -/
theorem notify_failure_isolated (body inserted : Json) (u t : String)
    (hparse : parseCreateTodo body = some t) (hu : u ≠ "") :
    webPost false body inserted (some u) FetchOutcome.rejects
        = webPost false body inserted (some u) FetchOutcome.ok ∧
    (webPost false body inserted (some u) FetchOutcome.rejects).status = 201 ∧
    (webPost false body inserted (some u) FetchOutcome.rejects).body
      = inserted ∧
    (webPost false body inserted (some u) FetchOutcome.rejects).fetchAttempted
      = true := by
  have hbu : (u != "") = true := by simpa using hu
  simp [webPost, hparse, hbu]

/-- C6 witness: a concrete body, row and relay URL. -/
theorem notify_failure_isolated_witness :
    (parseCreateTodo sampleTodoBody = some "write docs" ∧
      "http://ws:4001" ≠ "") ∧
    (webPost false sampleTodoBody (Json.num 1) (some "http://ws:4001")
          FetchOutcome.rejects
        = webPost false sampleTodoBody (Json.num 1) (some "http://ws:4001")
          FetchOutcome.ok ∧
      (webPost false sampleTodoBody (Json.num 1) (some "http://ws:4001")
          FetchOutcome.rejects).status = 201 ∧
      (webPost false sampleTodoBody (Json.num 1) (some "http://ws:4001")
          FetchOutcome.rejects).body = Json.num 1 ∧
      (webPost false sampleTodoBody (Json.num 1) (some "http://ws:4001")
          FetchOutcome.rejects).fetchAttempted = true) :=
  ⟨⟨by decide, by decide⟩,
    notify_failure_isolated sampleTodoBody (Json.num 1) "http://ws:4001"
      "write docs" (by decide) (by decide)⟩

/-- C7: an envelope's delivery targets are fixed by the registry snapshot at
ingestion time: an ingestion step changes no inbox outside the snapshot's
socket ids, while connect and disconnect steps change no inbox at all — so a
connection registered after the snapshot never receives that envelope. -/
theorem snapshot_fixes_targets :
    (∀ (s : RelayState) (body : ReqBody) (x : Nat),
        x ∉ s.registry.map Client.id →
        (step s (.ingest body)).inbox x = s.inbox x) ∧
    (∀ (s : RelayState) (c : Client),
        (step s (.connect c)).inbox = s.inbox) ∧
    (∀ (s : RelayState) (i : Nat),
        (step s (.disconnect i)).inbox = s.inbox) := by
  refine ⟨?_, ?_, ?_⟩
  · intro s body x hx
    cases body with
    | malformed => simp [step, todoCreatedHandler, deliverAll]
    | json v =>
        have hdel : (todoCreatedHandler s.registry (.json v)).delivered
            = (sendLoop ((envelope v).stringify) s.registry).delivered := by
          simp only [todoCreatedHandler]
          split <;> rfl
        simp only [step]
        rw [hdel]
        exact deliverAll_not_mem _ _ _ _ hx
  · intro s c
    simp only [step]
    split <;> rfl
  · intro s i
    rfl

/-- C7 witness: socket id 5 is outside the snapshot and receives nothing. -/
theorem snapshot_fixes_targets_witness :
    ((5 : Nat) ∉ twoLive.registry.map Client.id) ∧
    (step twoLive (.ingest (.json (Json.num 7)))).inbox 5 = twoLive.inbox 5 :=
  ⟨by decide,
    snapshot_fixes_targets.1 twoLive (.json (Json.num 7)) 5 (by decide)⟩

/-- C8: an ingestion call reads the registry but never mutates it: whatever
the body, the set of registered connections is identical before and after
the ingestion step. -/
theorem ingest_preserves_registry (s : RelayState) (body : ReqBody) :
    (step s (.ingest body)).registry = s.registry := rfl

/-- C9: with WS_INTERNAL_URL unset, a successful todo creation attempts no
notification fetch at all and still answers 201 with the inserted row,
whatever outcome a fetch would have had. -/
theorem unset_url_skips_notify (body inserted : Json) (t : String)
    (fo : FetchOutcome) (hparse : parseCreateTodo body = some t) :
    (webPost false body inserted none fo).fetchAttempted = false ∧
    (webPost false body inserted none fo).status = 201 ∧
    (webPost false body inserted none fo).body = inserted := by
  cases fo <;> simp [webPost, hparse]

/-- C9 witness: a concrete accepted body and row, the URL unset. -/
theorem unset_url_skips_notify_witness :
    (parseCreateTodo sampleTodoBody = some "write docs") ∧
    ((webPost false sampleTodoBody (Json.num 1) none
          FetchOutcome.rejects).fetchAttempted = false ∧
      (webPost false sampleTodoBody (Json.num 1) none
          FetchOutcome.rejects).status = 201 ∧
      (webPost false sampleTodoBody (Json.num 1) none
          FetchOutcome.rejects).body = Json.num 1) :=
  ⟨by decide,
    unset_url_skips_notify sampleTodoBody (Json.num 1) "write docs"
      FetchOutcome.rejects (by decide)⟩

/-- C10: when the k-th socket's send throws and every socket before it is
live, the handler has already delivered the envelope to each earlier socket
and answers 400 — the same status a malformed body gets — so a client-error
answer does not imply that zero pushes occurred. -/
theorem throw_aborts_fanout (pre post : List Client) (c : Client) (v : Json)
    (hpre : ∀ d ∈ pre, d.behavior = SendBehavior.ok)
    (hc : c.behavior = SendBehavior.throws) :
    (todoCreatedHandler (pre ++ c :: post) (.json v)).status = 400 ∧
    (todoCreatedHandler (pre ++ c :: post) (.json v)).delivered
      = pre.map (fun d => (d.id, (envelope v).stringify)) ∧
    (todoCreatedHandler (pre ++ c :: post) (.json v)).status
      = (todoCreatedHandler (pre ++ c :: post) ReqBody.malformed).status := by
  have h := sendLoop_pre_throw ((envelope v).stringify) pre post c hpre hc
  refine ⟨?_, ?_, ?_⟩ <;> simp [todoCreatedHandler, h]

/-- C10 witness: socket 0 live, socket 1 throwing: socket 0 was pushed to and
the call still answers 400. -/
theorem throw_aborts_fanout_witness :
    ((∀ d ∈ [(⟨0, SendBehavior.ok⟩ : Client)],
        d.behavior = SendBehavior.ok) ∧
      (⟨1, SendBehavior.throws⟩ : Client).behavior = SendBehavior.throws) ∧
    ((todoCreatedHandler
          ([⟨0, SendBehavior.ok⟩] ++ (⟨1, SendBehavior.throws⟩ : Client) :: [])
          (.json (Json.num 7))).status = 400 ∧
      (todoCreatedHandler
          ([⟨0, SendBehavior.ok⟩] ++ (⟨1, SendBehavior.throws⟩ : Client) :: [])
          (.json (Json.num 7))).delivered
        = [(⟨0, SendBehavior.ok⟩ : Client)].map
            (fun d => (d.id, (envelope (Json.num 7)).stringify)) ∧
      (todoCreatedHandler
          ([⟨0, SendBehavior.ok⟩] ++ (⟨1, SendBehavior.throws⟩ : Client) :: [])
          (.json (Json.num 7))).status
        = (todoCreatedHandler
            ([⟨0, SendBehavior.ok⟩] ++ (⟨1, SendBehavior.throws⟩ : Client) :: [])
            ReqBody.malformed).status) :=
  ⟨⟨by decide, rfl⟩,
    throw_aborts_fanout [⟨0, SendBehavior.ok⟩] [] ⟨1, SendBehavior.throws⟩
      (Json.num 7) (by decide) rfl⟩

end AfcStack
